import Mathlib

/-!
Verification of the TO2 client protocol driver and the RSA-DH key-exchange
session of this FDO (FIDO Device Onboard) implementation, as a shallow
embedding in Lean.

The embedding covers:
* byte-string conversion helpers mirroring the semantics of Go
  `big.Int.Bytes` / `big.Int.SetBytes` (minimal big-endian encoding);
* the `RSADHSession` key-exchange state and its `Parameter`,
  `SetParameter`, `MarshalCBOR`/`UnmarshalCBOR` operations (kex/rsadh.go);
* the TO2 driver response-processing logic of `helloDevice`,
  `nextOVEntry`, `verifyOwner`, `proveDevice`, `readyServiceInfo` and the
  `Done -> Done2` tail of `exchangeServiceInfo`.

Machine integers are modelled as `Nat`; byte strings as `List Nat`;
fallible operations as `Except String`; `nil` Go pointers and slices as
`Option`.
-/

namespace GoFdo

/-! ## Byte-string conversions (Go big.Int Bytes / SetBytes semantics) -/

/-- Fuel-driven worker for `natToBytesLE`; structural recursion on the fuel
keeps the definition kernel-reducible. -/
def natToBytesLEAux : Nat → Nat → List Nat
  | _, 0 => []
  | 0, _ + 1 => []
  | fuel + 1, n + 1 => ((n + 1) % 256) :: natToBytesLEAux fuel ((n + 1) / 256)

/-- Little-endian base-256 digits of a natural number, least significant
first, with no trailing zero digit.  `natToBytesLE 0 = []`, matching the
fact that `big.Int(0).Bytes()` is empty. -/
def natToBytesLE (n : Nat) : List Nat := natToBytesLEAux n n

/-- Value of a little-endian base-256 digit list. -/
def bytesToNatLE : List Nat → Nat
  | [] => 0
  | b :: bs => b + 256 * bytesToNatLE bs

/-- Minimal big-endian byte encoding of a natural number, the semantics of
Go `big.Int.Bytes`. -/
def natToBytes (n : Nat) : List Nat := (natToBytesLE n).reverse

/-- Big-endian interpretation of a byte string, the semantics of Go
`big.Int.SetBytes`. -/
def bytesToNat (bs : List Nat) : Nat := bytesToNatLE bs.reverse

theorem bytesToNatLE_natToBytesLEAux (fuel n : Nat) (h : n ≤ fuel) :
    bytesToNatLE (natToBytesLEAux fuel n) = n := by
  induction fuel generalizing n with
  | zero =>
    interval_cases n
    rfl
  | succ fuel ih =>
    match n with
    | 0 => rfl
    | m + 1 =>
      rw [natToBytesLEAux, bytesToNatLE,
        ih ((m + 1) / 256) (by
          have := Nat.div_lt_self (Nat.succ_pos m) (show 1 < 256 by omega)
          omega)]
      omega

theorem bytesToNatLE_natToBytesLE (n : Nat) : bytesToNatLE (natToBytesLE n) = n :=
  bytesToNatLE_natToBytesLEAux n n (Nat.le_refl n)

theorem bytesToNat_natToBytes (n : Nat) : bytesToNat (natToBytes n) = n := by
  rw [natToBytes, bytesToNat, List.reverse_reverse, bytesToNatLE_natToBytesLE]

theorem natToBytesLE_ne_nil {n : Nat} (h : n ≠ 0) : natToBytesLE n ≠ [] := by
  match n with
  | 0 => exact absurd rfl h
  | m + 1 => rw [natToBytesLE, natToBytesLEAux]; exact List.cons_ne_nil _ _

theorem natToBytes_ne_nil {n : Nat} (h : n ≠ 0) : natToBytes n ≠ [] := by
  rw [natToBytes]
  intro hrev
  exact natToBytesLE_ne_nil h (List.reverse_eq_nil_iff.mp hrev)

/-! ## Key-exchange session (src/kex/rsadh.go) -/

/-- Cipher-suite data consumed by `rsaSymmetricKey`.  The cipher-suite
registry itself (`CipherSuiteID.Suite`, `EncryptAlg.KeySize`,
`MacAlg.KeySize`, `PRFHash`) lives outside `src/`; this structure records
exactly the quantities `rsaSymmetricKey` reads from it. -/
structure CipherSuite where
  encKeySize : Nat
  macAlg : Nat
  macKeySize : Nat
  prfHash : Nat
deriving DecidableEq

/-- A key-derivation function as consumed by `rsaSymmetricKey`:
`kdf(hash, secret, context, bits)`.  Modelled from the spec: the KDF is
implemented elsewhere in the kex package (not under `src/`); the spec
describes it only as a deterministic function keyed by the cipher suite
PRF-hash, so it is passed in as an arbitrary function. -/
def KdfFn : Type := Nat → List Nat → List Nat → Nat → List Nat

/-- State of `RSADHSession` (kex/rsadh.go).  Go `*big.Int` fields that may
be nil are `Option Nat`; `SEK`/`SVK` are byte strings.  The embedded
`SessionCrypter`'s `Cipher` field is always `ID.Suite()` (recomputed by
`UnmarshalCBOR` and set that way by both registered factories), so only
the suite identifier `ID` is carried and the suite data is passed to the
operations explicitly. -/
structure RSADHSession where
  p : Nat
  g : Nat
  paramSize : Nat
  a : Option Nat
  xA : Option Nat
  b : Option Nat
  xB : Option Nat
  ID : Nat
  SEK : List Nat
  SVK : List Nat
deriving DecidableEq

/-- The MODP-2048 prime used by suite DHKEXid14 (kex/rsadh.go `prime14`). -/
def prime14 : Nat := 0xFFFFFFFFFFFFFFFFC90FDAA22168C234C4C6628B80DC1CD129024E088A67CC74020BBEA63B139B22514A08798E3404DDEF9519B3CD3A431B302B0A6DF25F14374FE1356D6D51C245E485B576625E7EC6F44C42E9A637ED6B0BFF5CB6F406B7EDEE386BFB5A899FA5AE9F24117C4B1FE649286651ECE45B3DC2007CB8A163BF0598DA48361C55D39A69163FA8FD24CF5F83655D23DCA3AD961C62F356208552BB9ED529077096966D670C354E4ABC9804F1746C08CA18217C32905E462E36CE3BE39E772C180E86039B2783A2EC07A28FB5C55DF06F4C52C9DE2BCBF6955817183995497CEA956AE515D2261898FA051015728E5A8AACAA68FFFFFFFFFFFFFFFF

/-- The MODP-3072 prime used by suite DHKEXid15 (kex/rsadh.go `prime15`). -/
def prime15 : Nat := 0xFFFFFFFFFFFFFFFFC90FDAA22168C234C4C6628B80DC1CD129024E088A67CC74020BBEA63B139B22514A08798E3404DDEF9519B3CD3A431B302B0A6DF25F14374FE1356D6D51C245E485B576625E7EC6F44C42E9A637ED6B0BFF5CB6F406B7EDEE386BFB5A899FA5AE9F24117C4B1FE649286651ECE45B3DC2007CB8A163BF0598DA48361C55D39A69163FA8FD24CF5F83655D23DCA3AD961C62F356208552BB9ED529077096966D670C354E4ABC9804F1746C08CA18217C32905E462E36CE3BE39E772C180E86039B2783A2EC07A28FB5C55DF06F4C52C9DE2BCBF6955817183995497CEA956AE515D2261898FA051015728E5A8AAAC42DAD33170D04507A33A85521ABDF1CBA64ECFB850458DBEF0A8AEA71575D060C7DB3970F85A6E1E4C7ABF5AE8CDB0933D71E8C94E04A25619DCEE3D2261AD2EE6BF12FFA06D98A0864D87602733EC86A64521F2B18177B200CBBE117577A615D6C770988C0BAD946E208E24FA074E5AB3143DB5BFCE0FD108E4B82D120A93AD2CAFFFFFFFFFFFFFFFF

/-- Shared session constructor underlying both registered factories.  The
factories pass `xA` (possibly nil) through `big.Int.SetBytes`; `SEK`/`SVK`
start out as empty byte strings. -/
def mkRSADHSession (p g paramSize : Nat) (xA : Option (List Nat)) (id : Nat) : RSADHSession :=
  { p := p, g := g, paramSize := paramSize,
    a := none, xA := xA.map bytesToNat, b := none, xB := none,
    ID := id, SEK := [], SVK := [] }

/-- The DHKEXid14 factory registered in kex/rsadh.go: MODP-2048 prime,
generator 2, parameter size 32. -/
def newDHKEXid14Session (xA : Option (List Nat)) (id : Nat) : RSADHSession :=
  mkRSADHSession prime14 2 32 xA id

/-- The DHKEXid15 factory registered in kex/rsadh.go: MODP-3072 prime,
generator 2, parameter size 96. -/
def newDHKEXid15Session (xA : Option (List Nat)) (id : Nat) : RSADHSession :=
  mkRSADHSession prime15 2 96 xA id

/-- Model of `rsaSymmetricKey(other, own, p, cipher)` (kex/rsadh.go): computes the
shared secret `other^own mod p`, expands it with the KDF, and splits the
output into `(sek, svk)`. -/
def rsaSymmetricKey (kdf : KdfFn) (cipher : CipherSuite) (other own p : Nat) :
    List Nat × List Nat :=
  let shSe := natToBytes (other ^ own % p)
  let sekSize := cipher.encKeySize
  let svkSize := if cipher.macAlg ≠ 0 then cipher.macKeySize else 0
  let symKey := kdf cipher.prfHash shSe [] ((sekSize + svkSize) * 8)
  (symKey.take sekSize, symKey.drop sekSize)

/-- Model of `RSADHSession.Parameter` (kex/rsadh.go): draw `paramSize` random bytes
`x` (supplied here as `randBytes`), compute `g^x mod p`, store `x` as the
local private parameter.  If the peer parameter `xA` was injected at
construction, the session keys are derived immediately from
`xA^x mod p`. -/
def RSADHSession.Parameter (s : RSADHSession) (cipher : CipherSuite) (kdf : KdfFn)
    (randBytes : List Nat) : List Nat × RSADHSession :=
  let x := bytesToNat randBytes
  let xX := s.g ^ x % s.p
  match s.xA with
  | none => (natToBytes xX, { s with a := some x })
  | some xA =>
      let keys := rsaSymmetricKey kdf cipher xA x s.p
      (natToBytes xX, { s with b := some x, SEK := keys.1, SVK := keys.2 })

/-- Byte strings whose contents are rendered into the log record emitted
by `SetParameter` via `log.Printf` with the `%#v` verb on the session:
Go prints the element values of `[]byte` fields (`SEK` and `SVK` of the
embedded `SessionCrypter`), while `*big.Int` fields (`p`, `a`, `xA`, `b`,
`xB`) render as pointer addresses. -/
def RSADHSession.logPrintfByteSlices (s : RSADHSession) : List (List Nat) :=
  [s.SEK, s.SVK]

/-- Model of `RSADHSession.SetParameter` (kex/rsadh.go): store the peer parameter
`xB`, log the session state (`log.Printf("%#v", s)` — the first component
of the result is the list of byte strings whose contents appear in that
log record), then derive the session keys from `xB^a mod p`.  A nil local
private parameter `a` makes the Go code dereference a nil `*big.Int`,
modelled as an error. -/
def RSADHSession.SetParameter (s : RSADHSession) (cipher : CipherSuite) (kdf : KdfFn)
    (xB : List Nat) : List (List Nat) × Except String RSADHSession :=
  let s1 := { s with xB := some (bytesToNat xB) }
  let logged := s1.logPrintfByteSlices
  match s1.a with
  | none => (logged, .error "nil private key-exchange parameter")
  | some a =>
      let keys := rsaSymmetricKey kdf cipher (bytesToNat xB) a s1.p
      (logged, .ok { s1 with SEK := keys.1, SVK := keys.2 })

/-! ### Session persistence (MarshalCBOR / UnmarshalCBOR) -/

/-- The `rsadhPersist` record marshalled by `RSADHSession.MarshalCBOR`.
The CBOR codec itself is an external collaborator; the round-trip claim
concerns the field mapping between the session and this record, so CBOR
encoding of the record is taken as faithful. -/
structure RSADHPersist where
  Prime : List Nat
  Generator : Nat
  ParamSize : Nat
  ParamA : List Nat
  ParamXA : List Nat
  ParamB : List Nat
  ParamXB : List Nat
  Cipher : Nat
  SEK : List Nat
  SVK : List Nat
deriving DecidableEq

/-- Byte encoding of an optional `big.Int` field as `MarshalCBOR` performs
it: a nil pointer leaves the persisted slice nil (empty), a non-nil value
is encoded with `Bytes()` (so the value zero also encodes to empty). -/
def optBigIntBytes : Option Nat → List Nat
  | none => []
  | some v => natToBytes v

/-- Model of `RSADHSession.MarshalCBOR` (kex/rsadh.go), up to the faithful CBOR
encoding of the `rsadhPersist` record. -/
def RSADHSession.marshalPersist (s : RSADHSession) : RSADHPersist :=
  { Prime := natToBytes s.p
    Generator := s.g
    ParamSize := s.paramSize
    ParamA := optBigIntBytes s.a
    ParamXA := optBigIntBytes s.xA
    ParamB := optBigIntBytes s.b
    ParamXB := optBigIntBytes s.xB
    Cipher := s.ID
    SEK := s.SEK
    SVK := s.SVK }

/-- Decoding of an optional `big.Int` field as `UnmarshalCBOR` performs
it: the pointer is set only when the persisted slice is non-empty. -/
def optBigIntOfBytes (bs : List Nat) : Option Nat :=
  if bs.length > 0 then some (bytesToNat bs) else none

/-- Model of `RSADHSession.UnmarshalCBOR` (kex/rsadh.go), up to the faithful CBOR
decoding of the `rsadhPersist` record. -/
def RSADHSession.unmarshalPersist (per : RSADHPersist) : RSADHSession :=
  { p := bytesToNat per.Prime
    g := per.Generator
    paramSize := per.ParamSize
    a := optBigIntOfBytes per.ParamA
    xA := optBigIntOfBytes per.ParamXA
    b := optBigIntOfBytes per.ParamB
    xB := optBigIntOfBytes per.ParamXB
    ID := per.Cipher
    SEK := per.SEK
    SVK := per.SVK }

/-- Serialize-then-deserialize composition for an `RSADHSession`. -/
def RSADHSession.roundTrip (s : RSADHSession) : RSADHSession :=
  RSADHSession.unmarshalPersist s.marshalPersist

/-- Returns `true` when an optional key-exchange parameter is either absent or has
a nonzero value (equivalently, a non-empty `Bytes()` encoding). -/
def posIfPresent : Option Nat → Bool
  | none => true
  | some v => v ≠ 0

/-! ## TO2 protocol data model -/

/-- TO2 message type constants (client source, lines 22-35). -/
def to2HelloDeviceMsgType : Nat := 60

def to2ProveOVHdrMsgType : Nat := 61

def to2GetOVNextEntryMsgType : Nat := 62

def to2OVNextEntryMsgType : Nat := 63

def to2ProveDeviceMsgType : Nat := 64

def to2SetupDeviceMsgType : Nat := 65

def to2DeviceServiceInfoReadyMsgType : Nat := 66

def to2OwnerServiceInfoReadyMsgType : Nat := 67

def to2DeviceServiceInfoMsgType : Nat := 68

def to2OwnerServiceInfoMsgType : Nat := 69

def to2DoneMsgType : Nat := 70

def to2Done2MsgType : Nat := 71

/-- Modelled from the spec: message type 255 is reserved as `Error` (the
`ErrorMsgType` constant is declared outside `src/`). -/
def ErrorMsgType : Nat := 255

/-- 16-byte random challenge; modelled as a byte list compared
element-wise like the Go `[16]byte` array. -/
abbrev Nonce : Type := List Nat

/-- 16-byte opaque device identifier. -/
abbrev GUID : Type := List Nat

/-- Tagged `(algorithm_id, digest_bytes)` pair. -/
structure Hash where
  algorithm : Nat
  value : List Nat
deriving DecidableEq

/-- HMAC value, carried with the same shape as `Hash`. -/
structure Hmac where
  algorithm : Nat
  value : List Nat
deriving DecidableEq

/-- Modelled from the spec: `PublicKey` (declared outside `src/`) is a
tagged union over RSA and EC keys with an encoding discriminator, whose
`Public()` method parses the body into a crypto key exposing a canonical
equality.  `body` stands for the encoded key material and `parsed` for
the result of `Public()`: `none` when parsing fails, `some k` with `k`
the abstract parsed crypto value otherwise. -/
structure PublicKey where
  keyType : Nat
  encoding : Nat
  body : List Nat
  parsed : Option Nat
deriving DecidableEq

/-- Model of `PublicKey.Public()`: the parsed crypto key, or a parse error. -/
def PublicKey.public (k : PublicKey) : Except String Nat :=
  match k.parsed with
  | some v => .ok v
  | none => .error "unsupported public key encoding"

/-- One rendezvous instruction (variable/value pair). -/
structure RvInstruction where
  variable_ : Nat
  value : List Nat
deriving DecidableEq

/-- Model of `VoucherHeader` (C1 data model): version, GUID, rendezvous info,
device info, manufacturer key, optional certificate chain hash. -/
structure VoucherHeader where
  Version : Nat
  GUID : GUID
  RvInfo : List (List RvInstruction)
  DeviceInfo : String
  ManufacturerKey : PublicKey
  CertChainHash : Option Hash
deriving DecidableEq

/-- Model of `VoucherEntryPayload`: the signed payload of one ownership voucher
entry. -/
structure VoucherEntryPayload where
  PreviousHash : Hash
  HeaderHash : Hash
  Extra : List Nat
  PublicKey : PublicKey
deriving DecidableEq

/-- One `cose.Sign1Tag[VoucherEntryPayload]` voucher entry as decoded from
an `OVNextEntry` response; only the payload is consulted by the modelled
driver logic. -/
structure VoucherEntry where
  payload : VoucherEntryPayload
deriving DecidableEq

/-- Model of `sigInfo`: signature algorithm info exchanged in HelloDevice. -/
structure SigInfo where
  sigType : Nat
  info : List Nat
deriving DecidableEq

/-- Model of `to2Context` (client source, lines 43-59): per-session transient
state accumulated across the TO2 messages. -/
structure to2Context where
  ProveDvNonce : Nonce
  SetupDvNonce : Nonce
  PublicKey : PublicKey
  OVH : VoucherHeader
  OVHHmac : Hmac
  NumVoucherEntries : Nat
  SigInfo : SigInfo
  KexSuiteName : String
  KeyExchangeA : List Nat
  MaxDeviceMessageSize : Nat
  MaxOwnerMessageSize : Nat
deriving DecidableEq

/-! ## TO2 protocol driver (response-processing logic) -/

/-- The payload of the COSE_Sign1-tagged `ProveOVHdr` response. -/
structure ProveOVHdrPayload where
  OVH : VoucherHeader
  NumOVEntries : Nat
  OVHHmac : Hmac
  NonceTO2ProveOV : Nonce
  SigInfoB : SigInfo
  KeyExchangeA : List Nat
  HelloDeviceHash : Hash
  MaxOwnerMessageSize : Nat
deriving DecidableEq

/-- A decoded `ProveOVHdr` response: payload, the two unprotected COSE
header claims (`none` when the claim is missing or cannot be
unmarshalled), and the outcome of verifying the COSE signature under the
claimed owner public key. -/
structure ProveOVHdrResponse where
  payload : ProveOVHdrPayload
  unprotectedNonce : Option Nonce
  unprotectedOwnerKey : Option PublicKey
  signatureValid : Bool
deriving DecidableEq

/-- Model of the `helloDevice` response processing (client source, lines 177-242):
message-type switch, extraction of the two unprotected header claims,
parse of the claimed owner key, signature check, hello-nonce echo check,
and construction of the `to2Context`.  `helloNonce` is the nonce the
driver drew and sent; the request fixes `MaxDeviceMessageSize = 0` and
`KexSuiteName = ""` (TODO markers in the source). -/
def helloDevice (helloNonce : Nonce) (typ : Nat) (resp : ProveOVHdrResponse) :
    Except String to2Context :=
  if typ = to2ProveOVHdrMsgType then
    match resp.unprotectedNonce with
    | none => .error "nonce unprotected header missing from TO2.ProveOVHdr response message"
    | some cuphNonce =>
      match resp.unprotectedOwnerKey with
      | none => .error "owner pubkey unprotected header missing from TO2.ProveOVHdr response message"
      | some ownerPubKey =>
        match ownerPubKey.public with
        | .error _ => .error "error parsing owner public key to verify TO2.ProveOVHdr payload signature"
        | .ok _ =>
          if !resp.signatureValid then
            .error "TO2.ProveOVHdr payload signature verification failed"
          else if resp.payload.NonceTO2ProveOV ≠ helloNonce then
            .error "nonce in TO2.ProveOVHdr did not match nonce sent in TO2.HelloDevice"
          else
            .ok { ProveDvNonce := cuphNonce
                  SetupDvNonce := List.replicate 16 0
                  PublicKey := ownerPubKey
                  OVH := resp.payload.OVH
                  OVHHmac := resp.payload.OVHHmac
                  NumVoucherEntries := resp.payload.NumOVEntries
                  SigInfo := resp.payload.SigInfoB
                  KexSuiteName := ""
                  KeyExchangeA := resp.payload.KeyExchangeA
                  MaxDeviceMessageSize := 0
                  MaxOwnerMessageSize := resp.payload.MaxOwnerMessageSize }
  else if typ = ErrorMsgType then
    .error "error received from TO2.HelloDevice request"
  else
    .error "unexpected message type for response to TO2.HelloDevice"

/-- A decoded `OVNextEntry` response together with the transport-reported
message type. -/
structure OVNextEntryResponse where
  typ : Nat
  OVEntryNum : Nat
  OVEntry : VoucherEntry
deriving DecidableEq

/-- Model of the `nextOVEntry` response processing (client source, lines 262-285):
accept message type 63, require the echoed entry number to equal the
requested index `i`. -/
def nextOVEntry (i : Nat) (resp : OVNextEntryResponse) : Except String VoucherEntry :=
  if resp.typ = to2OVNextEntryMsgType then
    if resp.OVEntryNum = i then .ok resp.OVEntry
    else .error "TO2.OVNextEntry message contained wrong entry number"
  else if resp.typ = ErrorMsgType then
    .error "error received from TO2.GetOVNextEntry request"
  else
    .error "unexpected message type for response to TO2.GetOVNextEntry"

/-- The `GetOVNextEntry` loop of `verifyOwner` (client source, lines
73-80): fetch entries `0 .. n-1` in order, stopping at the first failure.
The second component is the list of entry numbers actually requested
(each request is sent before its response is examined). -/
def fetchEntries (respond : Nat → OVNextEntryResponse) :
    Nat → Except String (List VoucherEntry) × List Nat
  | 0 => (.ok [], [])
  | n + 1 =>
    match fetchEntries respond n with
    | (.ok entries, trace) =>
      match nextOVEntry n (respond n) with
      | .ok e => (.ok (entries ++ [e]), trace ++ [n])
      | .error msg => (.error msg, trace ++ [n])
    | (.error msg, trace) => (.error msg, trace)

/-- Model of `verifyOwner` (client source, lines 64-125), starting from the
`to2Context` produced by `helloDevice`.  `respond` supplies the owner
responses to `GetOVNextEntry` requests; the voucher verification steps
`VerifyHeader`, `VerifyManufacturerKey` and `VerifyEntries` are methods
of the `Voucher` type declared outside `src/`, so their outcomes are
supplied as the three boolean oracles.  The second component of the
result is the list of entry numbers requested from the owner. -/
def verifyOwner (info : to2Context) (respond : Nat → OVNextEntryResponse)
    (verifyHeaderOk verifyManufacturerKeyOk verifyEntriesOk : Bool) :
    Except String to2Context × List Nat :=
  if info.NumVoucherEntries = 0 then
    (.error "ownership voucher cannot have zero entries", [])
  else
    match fetchEntries respond info.NumVoucherEntries with
    | (.error msg, trace) => (.error msg, trace)
    | (.ok entries, trace) =>
      if !verifyHeaderOk then
        (.error "bad ownership voucher header from TO2.ProveOVHdr: HMAC", trace)
      else if !verifyManufacturerKeyOk then
        (.error "bad ownership voucher header from TO2.ProveOVHdr: manufacturer key", trace)
      else if !verifyEntriesOk then
        (.error "bad ownership voucher entries from TO2.ProveOVHdr", trace)
      else
        match entries.getLast? with
        | none => (.error "ownership voucher cannot have zero entries", trace)
        | some lastEntry =>
          match lastEntry.payload.PublicKey.public with
          | .error _ => (.error "error parsing last public key of ownership voucher", trace)
          | .ok expectedOwnerPub =>
            match info.PublicKey.public with
            | .error _ => (.error "error parsing public key of owner service", trace)
            | .ok ownerPub =>
              if ownerPub = expectedOwnerPub then (.ok info, trace)
              else (.error "owner public key did not match last entry in ownership voucher", trace)

/-- The EAT payload constructed by `proveDevice` (client source, lines
298-302): the `KeyExchangeB` field is hard-coded to nil (`// TODO: kex`);
the key-exchange session is never consulted. -/
structure EATKexPayload where
  KeyExchangeB : List Nat
deriving DecidableEq

/-- The concrete EAT payload `proveDevice` signs and sends. -/
def proveDeviceEATPayload : EATKexPayload := { KeyExchangeB := [] }

/-- The payload of the COSE_Sign1-tagged `SetupDevice` response. -/
structure SetupDevicePayload where
  RendezvousInfo : List (List RvInstruction)
  GUID : GUID
  NonceTO2SetupDv : Nonce
  Owner2Key : PublicKey
deriving DecidableEq

/-- Model of the `proveDevice` response processing (client source, lines 330-362):
accept message type 65, require the echoed setup-device nonce, and build
the replacement `VoucherHeader` from the original header and the
`SetupDevice` payload. -/
def proveDevice (info : to2Context) (setupDeviceNonce : Nonce) (typ : Nat)
    (resp : SetupDevicePayload) : Except String VoucherHeader :=
  if typ = to2SetupDeviceMsgType then
    if resp.NonceTO2SetupDv ≠ setupDeviceNonce then
      .error "nonce in TO2.SetupDevice did not match nonce sent in TO2.ProveDevice"
    else
      .ok { Version := info.OVH.Version
            GUID := resp.GUID
            RvInfo := resp.RendezvousInfo
            DeviceInfo := info.OVH.DeviceInfo
            ManufacturerKey := resp.Owner2Key
            CertChainHash := info.OVH.CertChainHash }
  else if typ = ErrorMsgType then
    .error "error received from TO2.ProveDevice request"
  else
    .error "unexpected message type for response to TO2.ProveDevice"

/-- Modelled from the spec: `serviceinfo.DefaultMTU` (the serviceinfo
package is not under `src/`); the spec fixes the default MTU at 1300
bytes. -/
def DefaultMTU : Nat := 1300

/-- The `MaxOwnerServiceInfoSize` field of the `DeviceServiceInfoReady`
request (client source, lines 384-387): the configured
`MaxServiceInfoSizeReceive`, with zero replaced by the default MTU. -/
def readyServiceInfoMaxOwnerSize (maxServiceInfoSizeReceive : Nat) : Nat :=
  if maxServiceInfoSizeReceive = 0 then DefaultMTU else maxServiceInfoSizeReceive

/-- The `Done -> Done2` tail of `exchangeServiceInfo` (client source,
lines 472-494): the switch on the response type accepts
`to2OVNextEntryMsgType` (63) — not the declared `to2Done2MsgType` (71) —
then requires the echoed nonce to equal the `SetupDevice` nonce. -/
def exchangeServiceInfoDone (setupDvNonce : Nonce) (typ : Nat) (done2Nonce : Nonce) :
    Except String Unit :=
  if typ = to2OVNextEntryMsgType then
    if done2Nonce ≠ setupDvNonce then
      .error "nonce received in TO2.Done2 message did not match nonce received in TO2.SetupDevice"
    else
      .ok ()
  else if typ = ErrorMsgType then
    .error "error received from TO2.Done request"
  else
    .error "unexpected message type for response to TO2.Done"

/-! ## Concrete test fixtures used by counterexamples and witnesses -/

/-- A trivial cipher suite (AES-128-GCM shaped) used to instantiate the
kex operations at concrete inputs. -/
def testCipherSuite : CipherSuite :=
  { encKeySize := 16, macAlg := 0, macKeySize := 0, prfHash := 256 }

/-- A concrete KDF used to instantiate the kex operations at concrete
inputs. -/
def testKdf : KdfFn := fun _ _ _ bits => List.replicate (bits / 8) 0

/-- The all-zero 16-byte nonce (the Go zero value of `Nonce`). -/
def nonceZero : Nonce := List.replicate 16 0

/-! ## Key-exchange theorems -/

theorem rsaSymmetricKey_shared_comm (kdf : KdfFn) (cipher : CipherSuite) (g a b p : Nat) :
    rsaSymmetricKey kdf cipher (g ^ a % p) b p = rsaSymmetricKey kdf cipher (g ^ b % p) a p := by
  have h : (g ^ a % p) ^ b % p = (g ^ b % p) ^ a % p := by
    rw [← Nat.pow_mod, ← Nat.pow_mod, ← pow_mul, ← pow_mul, Nat.mul_comm]
  simp only [rsaSymmetricKey, h]

/-- The device-side start of a key exchange: a fresh session (no injected
peer parameter) generating its exchange parameter via `Parameter`. -/
def kexDeviceParameter (cipher : CipherSuite) (kdf : KdfFn) (p g size id : Nat)
    (ra : List Nat) : List Nat × RSADHSession :=
  (mkRSADHSession p g size none id).Parameter cipher kdf ra

/-- The owner-side half of a key exchange: a session constructed with the
device parameter `xA` injected, generating its own parameter via
`Parameter` (which also derives the session keys). -/
def kexOwnerParameter (cipher : CipherSuite) (kdf : KdfFn) (p g size id : Nat)
    (xA rb : List Nat) : List Nat × RSADHSession :=
  (mkRSADHSession p g size (some xA) id).Parameter cipher kdf rb

/-- C5: for every modulus `p`, generator `g`, random draws `ra`, `rb` and
cipher suite, the `(SEK, SVK)` pair derived by the side holding
`secret_b` (`Parameter` after injected `xA`) equals the pair derived by
the side holding `secret_a` (`SetParameter` on the peer parameter `xB`):
both sides of the exchange derive identical session keys. -/
theorem kex_sek_svk_agree (kdf : KdfFn) (cipher : CipherSuite)
    (p g size idA idB : Nat) (ra rb : List Nat) :
    ∃ dev2,
      ((kexDeviceParameter cipher kdf p g size idB ra).2.SetParameter cipher kdf
        (kexOwnerParameter cipher kdf p g size idA
          (kexDeviceParameter cipher kdf p g size idB ra).1 rb).1).2 = .ok dev2 ∧
      dev2.SEK = (kexOwnerParameter cipher kdf p g size idA
          (kexDeviceParameter cipher kdf p g size idB ra).1 rb).2.SEK ∧
      dev2.SVK = (kexOwnerParameter cipher kdf p g size idA
          (kexDeviceParameter cipher kdf p g size idB ra).1 rb).2.SVK := by
  refine ⟨_, rfl, ?_, ?_⟩
  · show (rsaSymmetricKey kdf cipher
        (bytesToNat (natToBytes (g ^ bytesToNat rb % p))) (bytesToNat ra) p).1 =
      (rsaSymmetricKey kdf cipher
        (bytesToNat (natToBytes (g ^ bytesToNat ra % p))) (bytesToNat rb) p).1
    simp only [bytesToNat_natToBytes]
    rw [rsaSymmetricKey_shared_comm]
  · show (rsaSymmetricKey kdf cipher
        (bytesToNat (natToBytes (g ^ bytesToNat rb % p))) (bytesToNat ra) p).2 =
      (rsaSymmetricKey kdf cipher
        (bytesToNat (natToBytes (g ^ bytesToNat ra % p))) (bytesToNat rb) p).2
    simp only [bytesToNat_natToBytes]
    rw [rsaSymmetricKey_shared_comm]

theorem optBigInt_roundtrip {o : Option Nat} (h : posIfPresent o = true) :
    optBigIntOfBytes (optBigIntBytes o) = o := by
  match o with
  | none => rfl
  | some v =>
    simp only [posIfPresent, decide_eq_true_eq] at h
    simp only [optBigIntBytes, optBigIntOfBytes, List.length_pos,
      bytesToNat_natToBytes, gt_iff_lt]
    rw [if_pos (natToBytes_ne_nil h)]

/-- A session state whose local private parameter is present but zero:
the state the DHKEXid14 factory and `Parameter` produce when the 32
drawn random bytes are all zero. -/
def zeroScalarSession : RSADHSession :=
  ((newDHKEXid14Session none 1).Parameter testCipherSuite testKdf (List.replicate 32 0)).2

/-- C9 counterexample: serializing then deserializing does not preserve
every session state.  `zeroScalarSession` holds the private parameter
`a = 0` (a present `big.Int` whose `Bytes()` encoding is empty);
`MarshalCBOR` writes it as an empty byte string and `UnmarshalCBOR`
restores it as absent, so the round-tripped session differs from the
original. -/
theorem kex_roundtrip_counterexample :
    RSADHSession.roundTrip zeroScalarSession ≠ zeroScalarSession ∧
    zeroScalarSession.a = some 0 ∧
    (RSADHSession.roundTrip zeroScalarSession).a = none := by
  have h1 : (RSADHSession.roundTrip zeroScalarSession).a = none := rfl
  have h2 : zeroScalarSession.a = some 0 := rfl
  refine ⟨fun h => ?_, h2, h1⟩
  rw [h, h2] at h1
  exact Option.noConfusion h1

/-- C9 (amended): for every session state in which each present
key-exchange parameter (`a`, `xA`, `b`, `xB`) is nonzero, serializing
with `MarshalCBOR` and deserializing with `UnmarshalCBOR` restores the
prime, generator, parameter size, cipher suite id, SEK, SVK and all four
parameters exactly (absent parameters staying absent); a present
parameter with value zero is instead restored as absent. -/
theorem kex_roundtrip_preserves_session (s : RSADHSession)
    (ha : posIfPresent s.a = true) (hxa : posIfPresent s.xA = true)
    (hb : posIfPresent s.b = true) (hxb : posIfPresent s.xB = true) :
    RSADHSession.roundTrip s = s := by
  cases s with
  | mk p g paramSize a xA b xB id sek svk =>
    simp only [RSADHSession.roundTrip, RSADHSession.marshalPersist,
      RSADHSession.unmarshalPersist, bytesToNat_natToBytes,
      optBigInt_roundtrip ha, optBigInt_roundtrip hxa,
      optBigInt_roundtrip hb, optBigInt_roundtrip hxb]

/-- A concrete completed session with all parameters present and nonzero. -/
def completedSession : RSADHSession :=
  { p := 23, g := 2, paramSize := 2, a := some 5, xA := some 9, b := some 4, xB := some 16,
    ID := 1, SEK := [10, 11], SVK := [12] }

theorem kex_roundtrip_preserves_session_witness :
    posIfPresent completedSession.a = true ∧ posIfPresent completedSession.xA = true ∧
    posIfPresent completedSession.b = true ∧ posIfPresent completedSession.xB = true ∧
    RSADHSession.roundTrip completedSession = completedSession :=
  ⟨by decide, by decide, by decide, by decide,
    kex_roundtrip_preserves_session completedSession (by decide) (by decide) (by decide)
      (by decide)⟩

/-- A session restored (via `UnmarshalCBOR`) from the persisted record of
a completed key exchange: the session keys are present. -/
def restoredSession : RSADHSession :=
  RSADHSession.unmarshalPersist
    { Prime := natToBytes 23, Generator := 2, ParamSize := 2,
      ParamA := [3], ParamXA := [], ParamB := [], ParamXB := [7],
      Cipher := 1, SEK := [161, 178, 195, 212], SVK := [229, 246] }

/-- C3: `SetParameter` renders the full session state into the log via
`log.Printf("%#v", s)`; on a session whose SEK and SVK are present (for
example one restored from persistence), the secret key bytes appear in
that log output, contradicting the requirement that secret material
never appear in logs. -/
theorem setParameter_logs_session_keys :
    restoredSession.SEK ∈ (restoredSession.SetParameter testCipherSuite testKdf [9]).1 ∧
    restoredSession.SVK ∈ (restoredSession.SetParameter testCipherSuite testKdf [9]).1 ∧
    restoredSession.SEK ≠ [] ∧ restoredSession.SVK ≠ [] := by
  refine ⟨?_, ?_, by decide, by decide⟩ <;> decide

/-- C4: the EAT payload signed and sent by `proveDevice` carries an empty
(nil) `key_exchange_b`, while the key-exchange session's `Parameter`
operation — which the claim says supplies that field — returns a
non-empty byte string (here evaluated on the DHKEXid14 suite at the
private scalar 1, giving `g^1 mod p = 2`). -/
theorem proveDevice_sends_empty_key_exchange :
    proveDeviceEATPayload.KeyExchangeB = [] ∧
    ((newDHKEXid14Session none 1).Parameter testCipherSuite testKdf [1]).1 = [2] ∧
    ((newDHKEXid14Session none 1).Parameter testCipherSuite testKdf [1]).1 ≠
      proveDeviceEATPayload.KeyExchangeB := by
  refine ⟨rfl, rfl, ?_⟩
  intro h
  exact List.noConfusion h

/-! ## TO2 driver theorems -/

/-- C1: whenever `verifyOwner` accepts (returns without error), the owner
public key taken from the `ProveOVHdr` unprotected COSE header (carried
in the context as `info.PublicKey`) parses to the same crypto key as the
public key in the payload of the last voucher entry.  The contrapositive
gives the second half of the claim: if the two keys differ, `verifyOwner`
returns an error. -/
theorem verifyOwner_owner_key_matches_voucher_tail
    (info : to2Context) (respond : Nat → OVNextEntryResponse)
    (verifyHeaderOk verifyManufacturerKeyOk verifyEntriesOk : Bool)
    (ctx : to2Context) (entries : List VoucherEntry) (lastEntry : VoucherEntry)
    (hOk : (verifyOwner info respond verifyHeaderOk verifyManufacturerKeyOk
      verifyEntriesOk).1 = .ok ctx)
    (hEntries : (fetchEntries respond info.NumVoucherEntries).1 = .ok entries)
    (hLast : entries.getLast? = some lastEntry) :
    ∃ k, info.PublicKey.public = .ok k ∧ lastEntry.payload.PublicKey.public = .ok k := by
  unfold verifyOwner at hOk
  split at hOk
  · exact absurd hOk (by simp)
  · split at hOk
    · next heq =>
      rw [heq] at hEntries
      exact absurd hEntries (by simp)
    · next entries' trace heq =>
      rw [heq] at hEntries
      simp only at hEntries
      injection hEntries with hEntries
      subst hEntries
      split at hOk
      · exact absurd hOk (by simp)
      · split at hOk
        · exact absurd hOk (by simp)
        · split at hOk
          · exact absurd hOk (by simp)
          · split at hOk
            · next hnone =>
              rw [hLast] at hnone
              exact Option.noConfusion hnone
            · next lastEntry' hsome =>
              rw [hLast] at hsome
              injection hsome with hsome
              subst hsome
              split at hOk
              · exact absurd hOk (by simp)
              · next expectedOwnerPub hexp =>
                split at hOk
                · exact absurd hOk (by simp)
                · next ownerPub hown =>
                  split at hOk
                  · next hkeyeq =>
                    subst hkeyeq
                    exact ⟨ownerPub, hown, hexp⟩
                  · exact absurd hOk (by simp)

/-- A parseable public key fixture whose abstract parsed value is `v`. -/
def samplePublicKey (v : Nat) : PublicKey :=
  { keyType := 1, encoding := 1, body := [v], parsed := some v }

/-- A sample hash fixture. -/
def sampleHash : Hash := { algorithm := 8, value := [1] }

/-- A sample HMAC fixture. -/
def sampleHmac : Hmac := { algorithm := 5, value := [2] }

/-- A sample signature-info fixture. -/
def sampleSigInfo : SigInfo := { sigType := 35, info := [] }

/-- A sample original voucher header. -/
def sampleOVH : VoucherHeader :=
  { Version := 101, GUID := List.replicate 16 1, RvInfo := [],
    DeviceInfo := "test-device", ManufacturerKey := samplePublicKey 3,
    CertChainHash := some sampleHash }

/-- A sample one-entry `to2Context` as produced by `helloDevice`, whose
claimed owner key parses to the value 5. -/
def sampleContext : to2Context :=
  { ProveDvNonce := nonceZero, SetupDvNonce := nonceZero,
    PublicKey := samplePublicKey 5, OVH := sampleOVH, OVHHmac := sampleHmac,
    NumVoucherEntries := 1, SigInfo := sampleSigInfo, KexSuiteName := "",
    KeyExchangeA := [], MaxDeviceMessageSize := 0, MaxOwnerMessageSize := 0 }

/-- A sample voucher entry whose payload key parses to the value 5. -/
def sampleEntry : VoucherEntry :=
  { payload := { PreviousHash := sampleHash, HeaderHash := sampleHash,
                 Extra := [], PublicKey := samplePublicKey 5 } }

/-- An owner that answers every `GetOVNextEntry` with `sampleEntry`. -/
def sampleEntryResponses : Nat → OVNextEntryResponse := fun i =>
  { typ := to2OVNextEntryMsgType, OVEntryNum := i, OVEntry := sampleEntry }

theorem verifyOwner_owner_key_matches_voucher_tail_witness :
    ∃ k, sampleContext.PublicKey.public = .ok k ∧
      sampleEntry.payload.PublicKey.public = .ok k :=
  verifyOwner_owner_key_matches_voucher_tail sampleContext sampleEntryResponses
    true true true sampleContext [sampleEntry] sampleEntry rfl rfl rfl

/-- C8: when the `ProveOVHdr` response reports zero voucher entries,
`verifyOwner` returns an error and the request trace is empty: no
`GetOVNextEntry` request is ever sent. -/
theorem verifyOwner_rejects_zero_entries
    (info : to2Context) (respond : Nat → OVNextEntryResponse)
    (verifyHeaderOk verifyManufacturerKeyOk verifyEntriesOk : Bool)
    (h : info.NumVoucherEntries = 0) :
    verifyOwner info respond verifyHeaderOk verifyManufacturerKeyOk verifyEntriesOk =
      (.error "ownership voucher cannot have zero entries", []) := by
  unfold verifyOwner
  rw [if_pos h]

/-- A sample `to2Context` reporting zero voucher entries. -/
def sampleZeroEntriesContext : to2Context :=
  { sampleContext with NumVoucherEntries := 0 }

theorem verifyOwner_rejects_zero_entries_witness :
    sampleZeroEntriesContext.NumVoucherEntries = 0 ∧
    verifyOwner sampleZeroEntriesContext sampleEntryResponses true true true =
      (.error "ownership voucher cannot have zero entries", []) :=
  ⟨rfl, verifyOwner_rejects_zero_entries sampleZeroEntriesContext sampleEntryResponses
    true true true rfl⟩

/-- C2: the `Done -> Done2` transition accepts the response only under
message type 63 (`to2OVNextEntryMsgType`) — a response delivered under
the dedicated `Done2` type 71 (`to2Done2MsgType`), even with the correct
setup-device nonce echo, is rejected as an unexpected message type. -/
theorem done2_checks_wrong_message_type :
    exchangeServiceInfoDone nonceZero to2Done2MsgType nonceZero =
      .error "unexpected message type for response to TO2.Done" ∧
    exchangeServiceInfoDone nonceZero to2OVNextEntryMsgType nonceZero = .ok () :=
  ⟨rfl, rfl⟩

/-- C6: every replacement `VoucherHeader` returned by `proveDevice` takes
`Version`, `DeviceInfo` and `CertChainHash` from the original voucher
header and `GUID`, `RvInfo` and `ManufacturerKey` from the `SetupDevice`
payload (`GUID`, `RendezvousInfo`, `Owner2Key`); those six fields are the
whole header, so no other source contributes. -/
theorem proveDevice_replacement_header_fields
    (info : to2Context) (setupDeviceNonce : Nonce) (typ : Nat)
    (resp : SetupDevicePayload) (vh : VoucherHeader)
    (h : proveDevice info setupDeviceNonce typ resp = .ok vh) :
    vh.Version = info.OVH.Version ∧ vh.DeviceInfo = info.OVH.DeviceInfo ∧
    vh.CertChainHash = info.OVH.CertChainHash ∧ vh.GUID = resp.GUID ∧
    vh.RvInfo = resp.RendezvousInfo ∧ vh.ManufacturerKey = resp.Owner2Key := by
  unfold proveDevice at h
  split at h
  · split at h
    · exact absurd h (by simp)
    · injection h with h
      subst h
      exact ⟨rfl, rfl, rfl, rfl, rfl, rfl⟩
  · split at h
    · exact absurd h (by simp)
    · exact absurd h (by simp)

/-- A sample `SetupDevice` payload echoing the all-zero nonce. -/
def sampleSetupDevicePayload : SetupDevicePayload :=
  { RendezvousInfo := [[{ variable_ := 2, value := [4] }]],
    GUID := List.replicate 16 7, NonceTO2SetupDv := nonceZero,
    Owner2Key := samplePublicKey 9 }

/-- The replacement header `proveDevice` builds from `sampleContext` and
`sampleSetupDevicePayload`. -/
def sampleReplacementOVH : VoucherHeader :=
  { Version := 101, GUID := List.replicate 16 7,
    RvInfo := sampleSetupDevicePayload.RendezvousInfo,
    DeviceInfo := "test-device", ManufacturerKey := samplePublicKey 9,
    CertChainHash := some sampleHash }

theorem proveDevice_replacement_header_fields_witness :
    sampleReplacementOVH.Version = sampleContext.OVH.Version ∧
    sampleReplacementOVH.DeviceInfo = sampleContext.OVH.DeviceInfo ∧
    sampleReplacementOVH.CertChainHash = sampleContext.OVH.CertChainHash ∧
    sampleReplacementOVH.GUID = sampleSetupDevicePayload.GUID ∧
    sampleReplacementOVH.RvInfo = sampleSetupDevicePayload.RendezvousInfo ∧
    sampleReplacementOVH.ManufacturerKey = sampleSetupDevicePayload.Owner2Key :=
  proveDevice_replacement_header_fields sampleContext nonceZero to2SetupDeviceMsgType
    sampleSetupDevicePayload sampleReplacementOVH rfl

/-- C7: each of the three nonce pairs the driver checks — the hello nonce
echoed in `ProveOVHdr`, the setup-device nonce echoed in `SetupDevice`,
and the setup-device nonce echoed in the `Done2` payload — must match
byte for byte for the corresponding step to return success; acceptance of
any of the three responses forces equality of the received and sent
nonce. -/
theorem driver_accepts_only_matching_nonces
    (helloNonce : Nonce) (t1 : Nat) (r1 : ProveOVHdrResponse) (c1 : to2Context)
    (info : to2Context) (setupDeviceNonce : Nonce) (t2 : Nat) (r2 : SetupDevicePayload)
    (vh : VoucherHeader) (setupDvNonce : Nonce) (t3 : Nat) (done2Nonce : Nonce)
    (h1 : helloDevice helloNonce t1 r1 = .ok c1)
    (h2 : proveDevice info setupDeviceNonce t2 r2 = .ok vh)
    (h3 : exchangeServiceInfoDone setupDvNonce t3 done2Nonce = .ok ()) :
    r1.payload.NonceTO2ProveOV = helloNonce ∧
    r2.NonceTO2SetupDv = setupDeviceNonce ∧
    done2Nonce = setupDvNonce := by
  refine ⟨?_, ?_, ?_⟩
  · unfold helloDevice at h1
    split at h1
    · split at h1
      · exact absurd h1 (by simp)
      · split at h1
        · exact absurd h1 (by simp)
        · split at h1
          · exact absurd h1 (by simp)
          · split at h1
            · exact absurd h1 (by simp)
            · split at h1
              · exact absurd h1 (by simp)
              · next hne => exact not_not.mp hne
    · split at h1
      · exact absurd h1 (by simp)
      · exact absurd h1 (by simp)
  · unfold proveDevice at h2
    split at h2
    · split at h2
      · exact absurd h2 (by simp)
      · next hne => exact not_not.mp hne
    · split at h2
      · exact absurd h2 (by simp)
      · exact absurd h2 (by simp)
  · unfold exchangeServiceInfoDone at h3
    split at h3
    · split at h3
      · exact absurd h3 (by simp)
      · next hne => exact not_not.mp hne
    · split at h3
      · exact absurd h3 (by simp)
      · exact absurd h3 (by simp)

/-- An accepting `ProveOVHdr` response echoing the all-zero hello nonce. -/
def sampleProveOVHdrResponse : ProveOVHdrResponse :=
  { payload := { OVH := sampleOVH, NumOVEntries := 1, OVHHmac := sampleHmac,
                 NonceTO2ProveOV := nonceZero, SigInfoB := sampleSigInfo,
                 KeyExchangeA := [3], HelloDeviceHash := sampleHash,
                 MaxOwnerMessageSize := 0 },
    unprotectedNonce := some nonceZero,
    unprotectedOwnerKey := some (samplePublicKey 5),
    signatureValid := true }

/-- The `to2Context` `helloDevice` builds from
`sampleProveOVHdrResponse`. -/
def sampleHelloContext : to2Context :=
  { ProveDvNonce := nonceZero, SetupDvNonce := List.replicate 16 0,
    PublicKey := samplePublicKey 5, OVH := sampleOVH, OVHHmac := sampleHmac,
    NumVoucherEntries := 1, SigInfo := sampleSigInfo, KexSuiteName := "",
    KeyExchangeA := [3], MaxDeviceMessageSize := 0, MaxOwnerMessageSize := 0 }

theorem driver_accepts_only_matching_nonces_witness :
    sampleProveOVHdrResponse.payload.NonceTO2ProveOV = nonceZero ∧
    sampleSetupDevicePayload.NonceTO2SetupDv = nonceZero ∧
    nonceZero = nonceZero :=
  driver_accepts_only_matching_nonces nonceZero to2ProveOVHdrMsgType
    sampleProveOVHdrResponse sampleHelloContext sampleContext nonceZero
    to2SetupDeviceMsgType sampleSetupDevicePayload sampleReplacementOVH
    nonceZero to2OVNextEntryMsgType nonceZero rfl rfl rfl

/-- C10: the `MaxOwnerServiceInfoSize` field sent in
`DeviceServiceInfoReady` equals the configured
`MaxServiceInfoSizeReceive` when it is nonzero, equals the default MTU
when the configured value is zero, and is never zero. -/
theorem readyServiceInfo_max_owner_size_policy (cfg : Nat) :
    (cfg ≠ 0 → readyServiceInfoMaxOwnerSize cfg = cfg) ∧
    (cfg = 0 → readyServiceInfoMaxOwnerSize cfg = DefaultMTU) ∧
    readyServiceInfoMaxOwnerSize cfg ≠ 0 := by
  by_cases hc : cfg = 0 <;>
    simp [readyServiceInfoMaxOwnerSize, hc, DefaultMTU]

theorem readyServiceInfo_max_owner_size_policy_witness :
    ((500 : Nat) ≠ 0 ∧ readyServiceInfoMaxOwnerSize 500 = 500) ∧
    readyServiceInfoMaxOwnerSize 0 = DefaultMTU ∧
    readyServiceInfoMaxOwnerSize 0 ≠ 0 :=
  ⟨⟨by decide, (readyServiceInfo_max_owner_size_policy 500).1 (by decide)⟩,
    (readyServiceInfo_max_owner_size_policy 0).2.1 rfl,
    (readyServiceInfo_max_owner_size_policy 0).2.2⟩

end GoFdo
